import Mathlib

/-!
Shallow embedding of the training-loop glue in open_musiclm/trainer.py.

The embedding covers three concerns of SingleStageTrainer:
1. dataset-field routing (DATASET_FIELD_TYPE_CONFIG, determine_types,
   has_duplicates, data_tuple_to_kwargs);
2. construction (stage dispatch with its asserts, dataset resolution,
   train/validation split);
3. the per-step bookkeeping (accum_log, train_step, train).

External collaborators (torch tensors, the accelerate harness, the stage
wrapper forward passes, torch.utils.data.random_split) are modelled
abstractly: batch elements by the attributes the routing predicates
inspect, losses as exact rationals supplied by a stream, and random_split
as an arbitrary function of the dataset, the two sizes and the seed.
-/

deriving instance DecidableEq for Except

namespace OpenMusicLM

/-- A positional element of a dataset batch, abstracted to the attributes
the routing predicate inspects: whether the element is a torch.Tensor,
and if so its dtype and number of dimensions. -/
inductive BatchElem where
  | tensor (dtype : String) (ndim : Nat)
  | nonTensor
deriving DecidableEq

/-- The is_bearable check of the single Annotated entry of
DATASET_FIELD_TYPE_CONFIG: a torch.Tensor whose dtype is float and whose
ndim lies in the set containing 2 and 3 (trainer.py lines 37-42). -/
def input_audio_check (el : BatchElem) : Bool :=
  match el with
  | .tensor dtype ndim => dtype == "float" && (ndim == 2 || ndim == 3)
  | .nonTensor => false

/-- DATASET_FIELD_TYPE_CONFIG (trainer.py lines 37-42): an ordered table of
name and predicate pairs; it holds exactly one entry. -/
def DATASET_FIELD_TYPE_CONFIG : List (String × (BatchElem → Bool)) :=
  [("input_audio", input_audio_check)]

/-- The two error species the routing helpers can raise: the TypeError of
determine_types and the AssertionError of the duplicate-field check. -/
inductive RouteError where
  | typeError
  | assertionError
deriving DecidableEq

/-- determine_types (trainer.py lines 74-84): for each element, scan the
config in order and take the first entry whose predicate accepts the
element; raise TypeError as soon as an element matches no entry. -/
def determine_types (data : List BatchElem)
    (config : List (String × (BatchElem → Bool))) :
    Except RouteError (List String) :=
  match data with
  | [] => .ok []
  | el :: rest =>
      match config.find? (fun nt => nt.2 el) with
      | some nt =>
          match determine_types rest config with
          | .ok names => .ok (nt.1 :: names)
          | .error e => .error e
      | none => .error .typeError

/-- One pass of the counting loop of has_duplicates (trainer.py lines
65-71): increment the count of el, inserting it at 0 first when absent. -/
def bump_count (counts : List (String × Nat)) (el : String) :
    List (String × Nat) :=
  if counts.any (fun c => c.1 == el) then
    counts.map (fun c => if c.1 == el then (c.1, c.2 + 1) else c)
  else
    counts ++ [(el, 1)]

/-- has_duplicates (trainer.py lines 65-71): build the occurrence counts
and test whether any count exceeds 1. -/
def has_duplicates (tup : List String) : Bool :=
  (tup.foldl bump_count []).any (fun c => decide (c.2 > 1))

/-- data_tuple_to_kwargs (trainer.py lines 271-276). The cached ds_fields
is threaded explicitly; when it is absent the mapping is inferred with
determine_types and checked with has_duplicates, and the successful result
carries the fields to cache together with the keyword assignment. An
exception leaves the cache untouched, which the Except return models. -/
def data_tuple_to_kwargs (ds_fields : Option (List String))
    (data : List BatchElem) :
    Except RouteError (List String × List (String × BatchElem)) :=
  match ds_fields with
  | some fields => .ok (fields, fields.zip data)
  | none =>
      match determine_types data DATASET_FIELD_TYPE_CONFIG with
      | .error e => .error e
      | .ok fields =>
          if has_duplicates fields then .error .assertionError
          else .ok (fields, fields.zip data)

/-- Number of classification-predicate invocations determine_types
performs on one element: the scan stops at the first accepting entry and
otherwise visits the whole config. -/
def pred_calls_on_elem (config : List (String × (BatchElem → Bool)))
    (el : BatchElem) : Nat :=
  match config.findIdx? (fun nt => nt.2 el) with
  | some i => i + 1
  | none => config.length

/-- Number of classification-predicate invocations determine_types
performs on a batch: elements are visited in order and the loop aborts at
the first unclassifiable element. -/
def determine_types_pred_calls (data : List BatchElem)
    (config : List (String × (BatchElem → Bool))) : Nat :=
  match data with
  | [] => 0
  | el :: rest =>
      pred_calls_on_elem config el +
      (if config.any (fun nt => nt.2 el) then
        determine_types_pred_calls rest config
      else 0)

/-- Number of classification-predicate invocations a call to
data_tuple_to_kwargs performs: zero when the field mapping is cached. -/
def data_tuple_to_kwargs_pred_calls (ds_fields : Option (List String))
    (data : List BatchElem) : Nat :=
  match ds_fields with
  | some _ => 0
  | none => determine_types_pred_calls data DATASET_FIELD_TYPE_CONFIG

/-- Errors raised during construction: the bare asserts of the stage
dispatch and dataset resolution (tagged with their condition text) and the
ValueError of the final else branch. -/
inductive InitError where
  | assertionError (cond : String)
  | valueError (msg : String)
deriving DecidableEq

/-- The three stage-wrapper variants a trainer can be built around. -/
inductive StageWrapper where
  | semanticStage
  | coarseStage
  | fineStage
deriving DecidableEq

/-- Stage dispatch of SingleStageTrainer.__init__ (trainer.py lines
126-150). Presence of the optional auxiliary modules is modelled by the
booleans wav2vec, audio_conditioner and neural_codec, matching the
exists checks of the source. -/
def stage_dispatch (stage : String) (wav2vec : Bool)
    (audio_conditioner : Bool) (neural_codec : Bool) :
    Except InitError StageWrapper :=
  if stage == "semantic" then
    if audio_conditioner && wav2vec then .ok .semanticStage
    else .error (.assertionError "exists(audio_conditioner) and exists(wav2vec)")
  else if stage == "coarse" then
    if wav2vec && audio_conditioner && neural_codec then .ok .coarseStage
    else .error (.assertionError
      "exists(wav2vec) and exists(audio_conditioner) and exists(neural_codec)")
  else if stage == "fine" then
    if audio_conditioner && neural_codec then .ok .fineStage
    else .error (.assertionError "exists(audio_conditioner) and exists(neural_codec)")
  else
    .error (.valueError ("invalid stage: " ++ stage))

/-- Python int() applied to an exact rational: integer division of the
numerator by the denominator truncates toward zero exactly as int(). -/
def pyInt (q : ℚ) : ℤ := q.num / q.den

/-- The validation split of __init__ (trainer.py lines 184-193). The
torch random_split collaborator is an arbitrary function of the dataset,
the two sizes and the seed of the freshly seeded generator the source
passes to it; a zero fraction makes train and validation the same
dataset. -/
def valid_split (random_split : List Nat → Nat → Nat → Nat → List Nat × List Nat)
    (ds : List Nat) (valid_frac : ℚ) (random_split_seed : Nat) :
    List Nat × List Nat :=
  if valid_frac > 0 then
    let train_size := (pyInt ((1 - valid_frac) * (ds.length : ℚ))).toNat
    let valid_size := ds.length - train_size
    random_split ds train_size valid_size random_split_seed
  else
    (ds, ds)

/-- Construction arguments of SingleStageTrainer that the modelled part of
__init__ reads. Datasets are abstracted as lists of sample identifiers;
folder carries the dataset the SoundDataset built from the folder would
yield, or none when no folder is passed. -/
structure InitArgs where
  stage : String
  wav2vec : Bool
  neural_codec : Bool
  audio_conditioner : Bool
  dataset : Option (List Nat)
  folder : Option (List Nat)
  valid_frac : ℚ
  random_split_seed : Nat
deriving DecidableEq

/-- Observable construction effects that touch the dataset: building a
SoundDataset from the folder, splitting, and creating the dataloaders
that read data. -/
inductive InitEvent where
  | soundDatasetConstructed
  | datasetSplit
  | dataloadersCreated
deriving DecidableEq

/-- Result of a successful construction: the chosen stage wrapper, the
step counter registered at 0, the resolved dataset, the two partitions,
and the dataset-touching effects in order. -/
structure InitResult where
  train_wrapper : StageWrapper
  steps : Nat
  ds : List Nat
  train_ds : List Nat
  valid_ds : List Nat
  events : List InitEvent
deriving DecidableEq

/-- Dataset resolution of __init__ (trainer.py lines 168-178): use the
passed dataset if any; otherwise the folder must be present (descriptive
assert) and a SoundDataset is built from it. The event list records
whether a SoundDataset was constructed. -/
def resolve_dataset (args : InitArgs) :
    Except (InitError × List InitEvent) (List Nat × List InitEvent) :=
  match args.dataset with
  | some ds => .ok (ds, [])
  | none =>
      match args.folder with
      | some folder_ds => .ok (folder_ds, [.soundDatasetConstructed])
      | none =>
          .error (.assertionError
            "folder must be passed in, if not passing in a custom dataset for text conditioned audio synthesis training", [])

/-- SingleStageTrainer.__init__ (trainer.py lines 119-231), restricted to
the stage dispatch, the step counter, dataset resolution and the
validation split. A failure carries the dataset-touching effects already
performed, so an error with an empty list happened before any dataset was
constructed or any data loaded. -/
def trainer_init
    (random_split : List Nat → Nat → Nat → Nat → List Nat × List Nat)
    (args : InitArgs) : Except (InitError × List InitEvent) InitResult :=
  match stage_dispatch args.stage args.wav2vec args.audio_conditioner
      args.neural_codec with
  | .error e => .error (e, [])
  | .ok wrapper =>
      match resolve_dataset args with
      | .error e => .error e
      | .ok (ds, evs) =>
          let parts := valid_split random_split ds args.valid_frac args.random_split_seed
          .ok { train_wrapper := wrapper
                steps := 0
                ds := ds
                train_ds := parts.1
                valid_ds := parts.2
                events := evs ++ [.datasetSplit, .dataloadersCreated] }

/-- accum_log (trainer.py lines 56-60) on a log modelled as a total map
with default 0, matching log.get(key, 0.): each new entry adds its value
onto the stored value of its key. -/
def accum_log (log : String → ℚ) (new_logs : List (String × ℚ)) :
    String → ℚ :=
  new_logs.foldl (fun lg kv => fun k => if k == kv.1 then lg kv.1 + kv.2 else lg k) log

/-- Configuration of the step loop: the fields of SingleStageTrainer that
train_step and train read. The stage is carried to record that the
checkpoint path does not depend on it. -/
structure StepConfig where
  stage : String
  num_train_steps : Nat
  grad_accum_every : Nat
  save_results_every : Nat
  save_model_every : Nat
  results_folder : String
  is_main : Bool
deriving DecidableEq

/-- Observable side effects of one train_step: the train-loss report to
the metrics tracker, the periodic validation-loss report, and the
periodic model snapshot with its file path. -/
inductive TrainEvent where
  | logTrainLoss (step : Nat) (loss : ℚ)
  | logValidLoss (step : Nat) (loss : ℚ)
  | saveModel (step : Nat) (path : String)
deriving DecidableEq

/-- train_step (trainer.py lines 278-333). Losses of the grad_accum_every
micro-batches arrive as micro_losses and the validation forward pass as
valid_loss, both exact rationals standing for the float values of the
collaborator model. The result is the incremented step counter, the log
mapping of the step, and the emitted events in program order. Gradient
clipping and the optimizer update mutate no state this model observes. -/
def train_step (cfg : StepConfig) (steps : Nat) (micro_losses : List ℚ)
    (valid_loss : ℚ) : Nat × (String → ℚ) × List TrainEvent :=
  let logs : String → ℚ :=
    micro_losses.foldl
      (fun logs l => accum_log logs [("loss", l / (cfg.grad_accum_every : ℚ))])
      (fun _ => 0)
  let train_log_events := [TrainEvent.logTrainLoss steps (logs "loss")]
  let valid_events :=
    if cfg.is_main && steps % cfg.save_results_every == 0 then
      [TrainEvent.logValidLoss steps valid_loss]
    else []
  let save_events :=
    if cfg.is_main && steps % cfg.save_model_every == 0 then
      [TrainEvent.saveModel steps
        (cfg.results_folder ++ "/semantic.transformer." ++ toString steps ++ ".pt")]
    else []
  (steps + 1, logs, train_log_events ++ valid_events ++ save_events)

/-- train (trainer.py lines 335-341): run train_step while the step
counter is below num_train_steps. Per-step micro-batch losses and
validation losses are read from the streams at the current step. Returns
the final step counter, the number of train_step invocations, and all
events in order. -/
def train (cfg : StepConfig) (loss_stream : Nat → List ℚ)
    (valid_stream : Nat → ℚ) (steps : Nat) :
    Nat × Nat × List TrainEvent :=
  if _h : steps < cfg.num_train_steps then
    let res := train_step cfg steps (loss_stream steps) (valid_stream steps)
    let rest := train cfg loss_stream valid_stream res.1
    (rest.1, rest.2.1 + 1, res.2.2 ++ rest.2.2)
  else
    (steps, 0, [])
termination_by cfg.num_train_steps - steps
decreasing_by simp [train_step]; omega

/-- The step number of a model-snapshot event, for filtering. -/
def saveEventStep : TrainEvent → Option Nat
  | .saveModel s _ => some s
  | _ => none

/-- The file path of a model-snapshot event, for filtering. -/
def saveEventPath : TrainEvent → Option String
  | .saveModel _ p => some p
  | _ => none

/-- The step number of a validation-loss report, for filtering. -/
def validLossEventStep : TrainEvent → Option Nat
  | .logValidLoss s _ => some s
  | _ => none

/-! Helper lemmas about the routing functions. -/

/-- When some element of the batch is accepted by no predicate of the
config, determine_types raises the TypeError. -/
theorem determine_types_err_of_unmatched
    (data : List BatchElem) (config : List (String × (BatchElem → Bool))) :
    (∃ el ∈ data, ∀ nt ∈ config, nt.2 el = false) →
    determine_types data config = .error .typeError := by
  induction data with
  | nil => intro h; simp at h
  | cons el rest ih =>
      intro h
      obtain ⟨x, hx, hall⟩ := h
      rcases List.mem_cons.mp hx with hx | hx
      · subst hx
        have hfind : config.find? (fun nt => nt.2 x) = none := by
          apply List.find?_eq_none.mpr
          intro nt hnt
          simp [hall nt hnt]
        simp [determine_types, hfind]
      · cases hfind : config.find? (fun nt => nt.2 el) with
        | none => simp [determine_types, hfind]
        | some nt => simp [determine_types, hfind, ih ⟨x, hx, hall⟩]

/-- When every element is accepted by the single config predicate,
determine_types assigns every position the one configured name. -/
theorem determine_types_all_matched (data : List BatchElem) :
    (∀ el ∈ data, input_audio_check el = true) →
    determine_types data DATASET_FIELD_TYPE_CONFIG =
      .ok (List.replicate data.length "input_audio") := by
  induction data with
  | nil => intro _; simp [determine_types]
  | cons el rest ih =>
      intro h
      have hel : input_audio_check el = true := h el (by simp)
      have hfind : DATASET_FIELD_TYPE_CONFIG.find? (fun nt => nt.2 el) =
          some ("input_audio", input_audio_check) := by
        simp only [DATASET_FIELD_TYPE_CONFIG]
        exact List.find?_cons_of_pos _ (by simpa using hel)
      have hrest := ih (fun x hx => h x (List.mem_cons_of_mem _ hx))
      simp [determine_types, hfind, hrest, List.replicate_succ]

/-- Folding the counting loop over copies of one name starting from a
count of k for that name yields k plus the number of copies. -/
theorem foldl_bump_replicate (s : String) :
    ∀ (n k : Nat),
    (List.replicate n s).foldl bump_count [(s, k)] = [(s, k + n)] := by
  intro n
  induction n with
  | zero => intro k; simp
  | succ m ih =>
      intro k
      rw [List.replicate_succ, List.foldl_cons]
      have hb : bump_count [(s, k)] s = [(s, k + 1)] := by simp [bump_count]
      rw [hb, ih (k + 1)]
      have he : k + 1 + m = k + (m + 1) := by omega
      rw [he]

/-- A list of two or more copies of one name has duplicates. -/
theorem has_duplicates_replicate (s : String) (n : Nat) (h : 2 ≤ n) :
    has_duplicates (List.replicate n s) = true := by
  obtain ⟨m, rfl⟩ : ∃ m, n = m + 2 := ⟨n - 2, by omega⟩
  rw [has_duplicates, List.replicate_succ, List.foldl_cons]
  have hb : bump_count [] s = [(s, 1)] := by simp [bump_count]
  rw [hb, foldl_bump_replicate s (m + 1) 1]
  simp

/-- C7: once the field mapping has been inferred and cached, a call of
data_tuple_to_kwargs on any further batch returns the cached mapping
unchanged, zips it with the batch, and performs zero invocations of the
classification predicates. -/
theorem data_tuple_to_kwargs_cached_noop (fields : List String)
    (data : List BatchElem) :
    data_tuple_to_kwargs (some fields) data = .ok (fields, fields.zip data) ∧
    data_tuple_to_kwargs_pred_calls (some fields) data = 0 :=
  ⟨rfl, rfl⟩

/-- C8: when some positional element of the batch matches no predicate of
the fixed configuration table, field-mapping inference on a fresh session
fails with the TypeError, so no mapping is returned for caching. -/
theorem data_tuple_to_kwargs_type_error_on_unclassifiable
    (data : List BatchElem)
    (h : ∃ el ∈ data, ∀ nt ∈ DATASET_FIELD_TYPE_CONFIG, nt.2 el = false) :
    data_tuple_to_kwargs none data = .error .typeError := by
  simp [data_tuple_to_kwargs,
    determine_types_err_of_unmatched data DATASET_FIELD_TYPE_CONFIG h]

/-- Witness for C8 at the one-element batch holding a non-tensor. -/
theorem data_tuple_to_kwargs_type_error_on_unclassifiable_witness :
    (∃ el ∈ [BatchElem.nonTensor], ∀ nt ∈ DATASET_FIELD_TYPE_CONFIG,
      nt.2 el = false) ∧
    data_tuple_to_kwargs none [BatchElem.nonTensor] = .error .typeError :=
  ⟨by decide,
   data_tuple_to_kwargs_type_error_on_unclassifiable [BatchElem.nonTensor]
     (by decide)⟩

/-- C10: the configuration table holds exactly the one name input_audio,
and on a fresh session every batch of two or more elements makes
data_tuple_to_kwargs fail: with the TypeError when some element matches
no predicate, and otherwise with the duplicate-field AssertionError,
because all classifiable elements receive the same name. -/
theorem data_tuple_to_kwargs_fails_on_multi_element_batches
    (data : List BatchElem) (hlen : 2 ≤ data.length) :
    DATASET_FIELD_TYPE_CONFIG.map Prod.fst = ["input_audio"] ∧
    ((∃ el ∈ data, ∀ nt ∈ DATASET_FIELD_TYPE_CONFIG, nt.2 el = false) →
      data_tuple_to_kwargs none data = .error .typeError) ∧
    ((∀ el ∈ data, ∃ nt ∈ DATASET_FIELD_TYPE_CONFIG, nt.2 el = true) →
      data_tuple_to_kwargs none data = .error .assertionError) := by
  refine ⟨by simp [DATASET_FIELD_TYPE_CONFIG], fun h => ?_, fun h => ?_⟩
  · simp [data_tuple_to_kwargs,
      determine_types_err_of_unmatched data DATASET_FIELD_TYPE_CONFIG h]
  · have hall : ∀ el ∈ data, input_audio_check el = true := by
      intro el hel
      obtain ⟨nt, hnt, hp⟩ := h el hel
      have : nt = ("input_audio", input_audio_check) := by
        simpa [DATASET_FIELD_TYPE_CONFIG] using hnt
      rw [this] at hp
      exact hp
    simp [data_tuple_to_kwargs, determine_types_all_matched data hall,
      has_duplicates_replicate "input_audio" data.length hlen]

/-- Witness for C10 at a batch of two classifiable float tensors. -/
theorem data_tuple_to_kwargs_fails_on_multi_element_batches_witness :
    2 ≤ [BatchElem.tensor "float" 2, BatchElem.tensor "float" 3].length ∧
    data_tuple_to_kwargs none
      [BatchElem.tensor "float" 2, BatchElem.tensor "float" 3] =
      .error .assertionError :=
  ⟨by decide,
   (data_tuple_to_kwargs_fails_on_multi_element_batches
      [BatchElem.tensor "float" 2, BatchElem.tensor "float" 3]
      (by decide)).2.2 (by decide)⟩

/-- A stage name outside the closed enumeration reaches the final else
branch of the dispatch and raises the ValueError naming the stage. -/
theorem stage_dispatch_invalid (stage : String) (w a n : Bool)
    (h1 : stage ≠ "semantic") (h2 : stage ≠ "coarse") (h3 : stage ≠ "fine") :
    stage_dispatch stage w a n =
      .error (.valueError ("invalid stage: " ++ stage)) := by
  simp [stage_dispatch, h1, h2, h3]

/-- C5: constructing the trainer with a stage name outside the closed
enumeration of semantic, coarse and fine fails at construction with the
ValueError of the dispatch, before any dataset work. -/
theorem trainer_init_invalid_stage_value_error
    (rs : List Nat → Nat → Nat → Nat → List Nat × List Nat) (args : InitArgs)
    (h1 : args.stage ≠ "semantic") (h2 : args.stage ≠ "coarse")
    (h3 : args.stage ≠ "fine") :
    trainer_init rs args =
      .error (.valueError ("invalid stage: " ++ args.stage), []) := by
  rw [trainer_init, stage_dispatch_invalid args.stage _ _ _ h1 h2 h3]

/-- Witness for C5 at the stage name clap. -/
theorem trainer_init_invalid_stage_value_error_witness :
    ("clap" : String) ≠ "semantic" ∧
    trainer_init (fun ds _ _ _ => (ds, ds))
      { stage := "clap", wav2vec := true, neural_codec := true,
        audio_conditioner := true, dataset := some [0, 1], folder := none,
        valid_frac := 0, random_split_seed := 42 } =
      .error (.valueError ("invalid stage: " ++ "clap"), []) :=
  ⟨by decide,
   trainer_init_invalid_stage_value_error _ _ (by decide) (by decide) (by decide)⟩

/-- C6: constructing the trainer for the semantic stage without an audio
conditioner fails with the descriptive assertion of the stage dispatch,
and the empty event list shows no dataset was constructed and no data
loaded before the failure. -/
theorem trainer_init_semantic_missing_conditioner
    (rs : List Nat → Nat → Nat → Nat → List Nat × List Nat) (args : InitArgs)
    (hstage : args.stage = "semantic") (hcond : args.audio_conditioner = false) :
    trainer_init rs args =
      .error (.assertionError "exists(audio_conditioner) and exists(wav2vec)",
        ([] : List InitEvent)) := by
  have hsd : stage_dispatch args.stage args.wav2vec args.audio_conditioner
      args.neural_codec =
      .error (.assertionError "exists(audio_conditioner) and exists(wav2vec)") := by
    simp [stage_dispatch, hstage, hcond]
  rw [trainer_init, hsd]

/-- Witness for C6: the semantic stage with wav2vec present, a dataset and
a folder both available, but no audio conditioner. -/
theorem trainer_init_semantic_missing_conditioner_witness :
    ("semantic" : String) = "semantic" ∧
    trainer_init (fun ds _ _ _ => (ds, ds))
      { stage := "semantic", wav2vec := true, neural_codec := true,
        audio_conditioner := false, dataset := some [0, 1],
        folder := some [2, 3], valid_frac := 1 / 20, random_split_seed := 42 } =
      .error (.assertionError "exists(audio_conditioner) and exists(wav2vec)",
        ([] : List InitEvent)) :=
  ⟨rfl, trainer_init_semantic_missing_conditioner _ _ rfl rfl⟩

/-- C9: for one split collaborator, construction is a deterministic
function of the arguments, so equal arguments with a positive validation
fraction yield identical train and validation partitions; and with a zero
fraction both partitions are the resolved dataset itself. -/
theorem trainer_init_split_deterministic
    (rs : List Nat → Nat → Nat → Nat → List Nat × List Nat) :
    (∀ (a a' : InitArgs) (r r' : InitResult), a = a' → 0 < a.valid_frac →
      trainer_init rs a = .ok r → trainer_init rs a' = .ok r' →
      r.train_ds = r'.train_ds ∧ r.valid_ds = r'.valid_ds) ∧
    (∀ (a : InitArgs) (r : InitResult), a.valid_frac = 0 →
      trainer_init rs a = .ok r →
      r.train_ds = r.ds ∧ r.valid_ds = r.ds) := by
  constructor
  · intro a a' r r' heq _ h h'
    subst heq
    rw [h] at h'
    cases h'
    exact ⟨rfl, rfl⟩
  · intro a r hfrac h
    rw [trainer_init] at h
    cases hsd : stage_dispatch a.stage a.wav2vec a.audio_conditioner
        a.neural_codec with
    | error e => rw [hsd] at h; simp at h
    | ok wrapper =>
        rw [hsd] at h
        cases hds : resolve_dataset a with
        | error e => rw [hds] at h; simp at h
        | ok p =>
            obtain ⟨ds, evs⟩ := p
            rw [hds] at h
            have hsplit : valid_split rs ds a.valid_frac a.random_split_seed =
                (ds, ds) := by
              simp [valid_split, hfrac]
            simp only [hsplit] at h
            cases h
            exact ⟨rfl, rfl⟩

/-- Witness for C9: both parts at concrete constructions, one with the
fraction one half, one with fraction zero. -/
theorem trainer_init_split_deterministic_witness :
    ((0 : ℚ) < 1 / 2 ∧
      trainer_init (fun ds a _ _ => (ds.take a, ds.drop a))
        { stage := "semantic", wav2vec := true, neural_codec := true,
          audio_conditioner := true, dataset := some [0, 1, 2, 3],
          folder := none, valid_frac := 1 / 2, random_split_seed := 42 } =
        .ok { train_wrapper := .semanticStage, steps := 0, ds := [0, 1, 2, 3],
              train_ds := [0, 1], valid_ds := [2, 3],
              events := [.datasetSplit, .dataloadersCreated] }) ∧
    ([0, 1] = [0, 1] ∧ [2, 3] = [2, 3]) ∧
    (([1, 2, 3] : List Nat) = [1, 2, 3] ∧ ([1, 2, 3] : List Nat) = [1, 2, 3]) := by
  have hrun : trainer_init (fun ds a _ _ => (ds.take a, ds.drop a))
      { stage := "semantic", wav2vec := true, neural_codec := true,
        audio_conditioner := true, dataset := some [0, 1, 2, 3],
        folder := none, valid_frac := 1 / 2, random_split_seed := 42 } =
      .ok { train_wrapper := .semanticStage, steps := 0, ds := [0, 1, 2, 3],
            train_ds := [0, 1], valid_ds := [2, 3],
            events := [.datasetSplit, .dataloadersCreated] } := by
    norm_num [trainer_init, stage_dispatch, resolve_dataset, valid_split, pyInt]
    decide
  have hzero : trainer_init (fun ds a _ _ => (ds.take a, ds.drop a))
      { stage := "fine", wav2vec := false, neural_codec := true,
        audio_conditioner := true, dataset := some [1, 2, 3],
        folder := none, valid_frac := 0, random_split_seed := 7 } =
      .ok { train_wrapper := .fineStage, steps := 0, ds := [1, 2, 3],
            train_ds := [1, 2, 3], valid_ds := [1, 2, 3],
            events := [.datasetSplit, .dataloadersCreated] } := by
    norm_num [trainer_init, stage_dispatch, resolve_dataset, valid_split, pyInt]
    decide
  refine ⟨⟨by norm_num, hrun⟩, ?_, ?_⟩
  · exact (trainer_init_split_deterministic _).1 _ _ _ _ rfl (by norm_num)
      hrun hrun
  · exact (trainer_init_split_deterministic _).2 _ _ rfl hzero

/-- Summing elementwise quotients by one divisor equals dividing the sum,
exactly in the rationals. -/
theorem sum_map_div (losses : List ℚ) (g : ℚ) :
    (losses.map (fun l => l / g)).sum = losses.sum / g := by
  induction losses with
  | nil => simp
  | cons l rest ih => simp [ih, add_div]

/-- Folding accum_log entries for the one key loss over a list of values
adds their sum onto the initial value at that key. -/
theorem accum_loss_foldl (g : ℚ) (losses : List ℚ) :
    ∀ (init : String → ℚ),
    (losses.foldl (fun logs l => accum_log logs [("loss", l / g)]) init) "loss"
      = init "loss" + (losses.map (fun l => l / g)).sum := by
  induction losses with
  | nil => intro init; simp
  | cons l rest ih =>
      intro init
      rw [List.foldl_cons, ih]
      have hstep : accum_log init [("loss", l / g)] "loss" = init "loss" + l / g := by
        simp [accum_log]
      rw [hstep, List.map_cons, List.sum_cons]
      ring

/-- C3: with grad_accum_every micro-batches, the loss entry of the log
mapping returned by train_step, and the train loss reported to the
metrics tracker, equal the sum of the per-micro-batch losses divided by
grad_accum_every. -/
theorem train_step_loss_is_scaled_sum (cfg : StepConfig) (steps : Nat)
    (losses : List ℚ) (vl : ℚ)
    ( _hlen : losses.length = cfg.grad_accum_every)
    ( _hg : 0 < cfg.grad_accum_every) :
    ((train_step cfg steps losses vl).2.1) "loss" =
        losses.sum / (cfg.grad_accum_every : ℚ) ∧
    ((train_step cfg steps losses vl).2.2).head? =
      some (TrainEvent.logTrainLoss steps
        (losses.sum / (cfg.grad_accum_every : ℚ))) := by
  have hlogs : ((train_step cfg steps losses vl).2.1) "loss" =
      losses.sum / (cfg.grad_accum_every : ℚ) := by
    show (losses.foldl
        (fun logs l => accum_log logs [("loss", l / (cfg.grad_accum_every : ℚ))])
        (fun _ => 0)) "loss" = _
    rw [accum_loss_foldl, sum_map_div]
    simp
  refine ⟨hlogs, ?_⟩
  have hhead : ((train_step cfg steps losses vl).2.2).head? =
      some (TrainEvent.logTrainLoss steps
        (((train_step cfg steps losses vl).2.1) "loss")) := rfl
  rw [hhead, hlogs]

/-- Concrete configuration used by the witnesses of the step claims. -/
def witness_cfg : StepConfig :=
  { stage := "semantic", num_train_steps := 5, grad_accum_every := 2,
    save_results_every := 2, save_model_every := 2,
    results_folder := "./results", is_main := true }

/-- Witness for C3: two micro-batch losses 3 and 5 with accumulation 2
report the loss 4. -/
theorem train_step_loss_is_scaled_sum_witness :
    ([(3 : ℚ), 5].length = witness_cfg.grad_accum_every ∧
      0 < witness_cfg.grad_accum_every) ∧
    ((train_step witness_cfg 0 [(3 : ℚ), 5] 7).2.1) "loss" =
      [(3 : ℚ), 5].sum / (witness_cfg.grad_accum_every : ℚ) :=
  ⟨⟨rfl, by decide⟩,
   (train_step_loss_is_scaled_sum witness_cfg 0 [(3 : ℚ), 5] 7 rfl
      (by decide)).1⟩

/-- C4: train_step increments the step counter by exactly one, whatever
the current step and whether the periodic validation or checkpoint
branches fire, whenever the two cadence divisors are positive so the
modulo tests are defined. -/
theorem train_step_increments_steps_by_one (cfg : StepConfig) (steps : Nat)
    (ml : List ℚ) (vl : ℚ)
    ( _hres : 0 < cfg.save_results_every) ( _hsave : 0 < cfg.save_model_every) :
    (train_step cfg steps ml vl).1 = steps + 1 := rfl

/-- Witness for C4 at a step where both periodic branches fire and one
where neither does. -/
theorem train_step_increments_steps_by_one_witness :
    (0 < witness_cfg.save_results_every ∧ 0 < witness_cfg.save_model_every) ∧
    (train_step witness_cfg 2 [(1 : ℚ), 1] 0).1 = 2 + 1 ∧
    (train_step witness_cfg 3 [(1 : ℚ), 1] 0).1 = 3 + 1 :=
  ⟨⟨by decide, by decide⟩,
   train_step_increments_steps_by_one witness_cfg 2 [(1 : ℚ), 1] 0 (by decide)
     (by decide),
   train_step_increments_steps_by_one witness_cfg 3 [(1 : ℚ), 1] 0 (by decide)
     (by decide)⟩

/-- C1 amended: on the primary process at a step due for a snapshot,
train_step writes exactly one checkpoint, and its file name under the
results folder is semantic.transformer followed by the step number and
the pt suffix, for every stage value. -/
theorem train_step_checkpoint_named_semantic (cfg : StepConfig)
    (steps : Nat) (ml : List ℚ) (vl : ℚ)
    (hmain : cfg.is_main = true) (hdue : steps % cfg.save_model_every = 0) :
    ((train_step cfg steps ml vl).2.2).filterMap saveEventPath =
      [cfg.results_folder ++ "/semantic.transformer." ++ toString steps ++ ".pt"] := by
  simp only [train_step, hmain, hdue, Bool.true_and]
  rw [List.filterMap_append, List.filterMap_append]
  simp [saveEventPath]

/-- Configuration of a coarse-stage trainer used to exhibit the
checkpoint-name counterexample. -/
def coarse_cfg : StepConfig :=
  { stage := "coarse", num_train_steps := 5, grad_accum_every := 1,
    save_results_every := 1, save_model_every := 1,
    results_folder := "./results", is_main := true }

/-- Counterexample to C1 as stated: the snapshot a coarse-stage trainer
writes at step 2 is not named with the stage; it is named
semantic.transformer.2.pt. -/
theorem train_step_checkpoint_not_stage_named :
    ((train_step coarse_cfg 2 [(0 : ℚ)] 0).2.2).filterMap saveEventPath ≠
      ["./results/" ++ coarse_cfg.stage ++ ".transformer." ++ toString 2 ++ ".pt"] ∧
    ((train_step coarse_cfg 2 [(0 : ℚ)] 0).2.2).filterMap saveEventPath =
      ["./results/semantic.transformer.2.pt"] := by
  have hpath : ((train_step coarse_cfg 2 [(0 : ℚ)] 0).2.2).filterMap saveEventPath =
      ["./results/semantic.transformer." ++ toString 2 ++ ".pt"] := by
    simp [train_step, coarse_cfg, saveEventPath]
  constructor
  · rw [hpath]
    decide
  · rw [hpath]
    decide

/-- Configuration of a fine-stage trainer used by the amended-claim
witness. -/
def fine_cfg : StepConfig :=
  { stage := "fine", num_train_steps := 5, grad_accum_every := 1,
    save_results_every := 2, save_model_every := 2,
    results_folder := "./results", is_main := true }

/-- Witness for the amended C1 at a fine-stage configuration due for a
snapshot at step 4. -/
theorem train_step_checkpoint_named_semantic_witness :
    (fine_cfg.is_main = true ∧ 4 % fine_cfg.save_model_every = 0) ∧
    ((train_step fine_cfg 4 [(1 : ℚ)] 0).2.2).filterMap saveEventPath =
      [fine_cfg.results_folder ++ "/semantic.transformer." ++ toString 4 ++ ".pt"] :=
  ⟨⟨rfl, by decide⟩,
   train_step_checkpoint_named_semantic fine_cfg 4 [(1 : ℚ)] 0 rfl (by decide)⟩

/-- Configuration of the example scenario of C2: five steps with both
cadences at two, on the primary process. -/
def c2_cfg : StepConfig :=
  { stage := "semantic", num_train_steps := 5, grad_accum_every := 1,
    save_results_every := 2, save_model_every := 2,
    results_folder := "./results", is_main := true }

/-- C2: with num_train_steps 5 and both cadences 2, starting from step 0
on the primary process, train runs train_step exactly 5 times, writes a
checkpoint exactly at steps 0, 2 and 4, and logs a validation loss
exactly at steps 0, 2 and 4, for any loss values the model produces. -/
theorem train_example_scenario (ls : Nat → List ℚ) (vs : Nat → ℚ) :
    (train c2_cfg ls vs 0).2.1 = 5 ∧
    ((train c2_cfg ls vs 0).2.2).filterMap saveEventStep = [0, 2, 4] ∧
    ((train c2_cfg ls vs 0).2.2).filterMap validLossEventStep = [0, 2, 4] := by
  simp [train, train_step, c2_cfg, saveEventStep, validLossEventStep]

end OpenMusicLM
